import Mathlib

/-!
Shallow embedding of the record-store / attachment / page-controller logic of
`src/app.py` (a Streamlit CRUD application over CSV files), together with
theorems settling the specification claims about it.

Conventions of the embedding:
* a CSV table is a `List` of records (pandas `DataFrame` rows, in file order;
  `pd.concat(..., ignore_index=True)` appends at the end);
* ids are `Nat` (the code casts them with `int(...)`);
* the repeated id-assignment expression
  `int(df["id"].max()) + 1 if len(df) > 0 else 1` is the function `newId`;
* `df[df["id"] != selected_id]` is `List.filter`;
* the in-place edit `df.at[idx, col] = v` at `idx = df.index[df["id"] == selected][0]`
  (the first row whose id matches) is `updateFirst`;
* the on-disk upload directory is a `List (String × String)` of
  (path, bytes) pairs; `open(path, "wb").write(...)` is `write_file`
  (last write wins on a name collision);
* form-submit handlers that report a validation error and skip the write
  return the table unchanged.
-/

namespace CAnalysis

/-- Value of `df["id"].max()` over the table, as a fold with base 0
(every handler guards this with `len(df) > 0` before using it). -/
def maxId {α : Type} (getId : α → Nat) (l : List α) : Nat :=
  (l.map getId).foldl Nat.max 0

/-- The id-assignment expression repeated at every create site of `app.py`:
`int(df["id"].max()) + 1 if len(df) > 0 else 1`. -/
def newId {α : Type} (getId : α → Nat) (l : List α) : Nat :=
  if l.length > 0 then maxId getId l + 1 else 1

/-- Embedding of `df.at[idx, ...] = ...` where `idx` is the first index whose
row satisfies `p`: rewrite the first matching element, keep everything else. -/
def updateFirst {α : Type} (p : α → Bool) (f : α → α) : List α → List α
  | [] => []
  | x :: xs => if p x then f x :: xs else x :: updateFirst p f xs

/-- Character-by-character prefix test: does the second list begin with the
first one? -/
def startswith_chars : List Char → List Char → Bool
  | [], _ => true
  | _ :: _, [] => false
  | p :: ps, c :: cs => p == c && startswith_chars ps cs

/-- Python's `str.startswith(pre)`: the string begins with `pre`. -/
def startswith (s pre : String) : Bool := startswith_chars pre.data s.data

/-- Embedding of `_simple_type_from_mime` (src/app.py lines 38-47).  The argument is the
declared MIME type of an uploaded file (`f.type`); `none` and `""` are both
falsy for Python's `if not mime`. -/
def simple_type_from_mime (mime : Option String) : String :=
  match mime with
  | none => "other"
  | some m =>
    if m = "" then "other"
    else if startswith m "image" then "image"
    else if startswith m "video" then "video"
    else if m = "application/pdf" then "pdf"
    else "other"

/-- One row of `shooting_sites.csv` (src/app.py lines 203-205). -/
structure Site where
  id : Nat
  site_name : String
  address : String
  status : String
  visit_datetime : String
  note : String
  deriving DecidableEq

/-- One row of `assets.csv` (src/app.py lines 207-209). -/
structure Asset where
  id : Nat
  site_id : Nat
  file_name : String
  file_path : String
  file_type : String
  uploaded_at : String
  note : String
  deriving DecidableEq

/-- One row of `attachments.csv` (src/app.py lines 92-105). -/
structure Attachment where
  id : Nat
  module : String
  ref_id : Nat
  title : String
  file_name : String
  file_path : String
  file_type : String
  uploaded_at : String
  note : String
  deriving DecidableEq

/-- One row of `scripts.csv` (src/app.py lines 396-398). -/
structure Script where
  id : Nat
  category : String
  title : String
  content : String
  version : String
  is_approved : Bool
  updated_at : String
  deriving DecidableEq

/-- One row of `storyboards.csv` (src/app.py lines 400-402). -/
structure Storyboard where
  id : Nat
  script_id : Nat
  shot_no : String
  description : String
  image_path : String
  note : String
  deriving DecidableEq

/-- One row of `departments.csv` (src/app.py lines 635-637). -/
structure Department where
  id : Nat
  dept_type : String
  name : String
  role : String
  contact : String
  note : String
  deriving DecidableEq

/-- One row of `schedules.csv` (src/app.py lines 731-743). -/
structure Schedule where
  id : Nat
  date : String
  start_time : String
  end_time : String
  location : String
  scene_desc : String
  responsible : String
  note : String
  deriving DecidableEq

/-- One row of `meals.csv` (src/app.py lines 744-746). -/
structure Meal where
  id : Nat
  date : String
  meal_type : String
  time : String
  people : String
  vendor : String
  note : String
  deriving DecidableEq

/-- One row of `editing_tasks.csv` (src/app.py lines 992-1004). -/
structure EditingTask where
  id : Nat
  clip_name : String
  type : String
  editor : String
  status : String
  version : String
  last_update : String
  note : String
  deriving DecidableEq

/-- An uploaded file as Streamlit hands it to the handlers: original name,
declared MIME type (`f.type`, possibly absent), raw bytes. -/
structure UploadedFile where
  name : String
  type : Option String
  content : String
  deriving DecidableEq

/-! ## Operations -/

/-- Writing an uploaded blob to disk with `open(path, "wb")`: the upload
directory maps each path to the bytes last written there (a name collision
overwrites — no dedup, no rename). -/
def write_file (store : List (String × String)) (path content : String) :
    List (String × String) :=
  store.filter (fun e => e.1 != path) ++ [(path, content)]

/-- The 新增案場 submit handler (src/app.py lines 226-242): reject an empty
`site_name` with an inline error and no write, otherwise append a row with
id `newId`. -/
def create_site (sites : List Site)
    (site_name address status visit_datetime note : String) : List Site :=
  if site_name = "" then sites
  else sites ++ [⟨newId Site.id sites, site_name, address, status,
    visit_datetime, note⟩]

/-- The 儲存修改 handler for a site (src/app.py lines 287-297): overwrite every
non-id field of the first row whose id matches. -/
def edit_site (sites : List Site) (selected_id : Nat)
    (site_name address status visit_datetime note : String) : List Site :=
  updateFirst (fun s => s.id == selected_id)
    (fun s => ⟨s.id, site_name, address, status, visit_datetime, note⟩) sites

/-- The 刪除此案場 handler (src/app.py lines 299-306): the handler filters the site out
of `shooting_sites.csv` and its assets out of `assets.csv` and rewrites those
two files; `attachments.csv` is not among the files it touches. -/
def delete_site (sites : List Site) (assets : List Asset)
    (attachments : List Attachment) (selected_id : Nat) :
    List Site × List Asset × List Attachment :=
  (sites.filter (fun s => s.id != selected_id),
   assets.filter (fun a => a.site_id != selected_id),
   attachments)

/-- One iteration of the asset-upload loop (src/app.py lines 335-355):
write the blob under `assets/` and append one `assets.csv` row. -/
def upload_asset_step (selected_site_id : Nat) (note_assets now : String)
    (s : List Asset × List (String × String)) (f : UploadedFile) :
    List Asset × List (String × String) :=
  (s.1 ++ [⟨newId Asset.id s.1, selected_site_id, f.name,
    "assets/" ++ f.name, simple_type_from_mime f.type, now, note_assets⟩],
   write_file s.2 ("assets/" ++ f.name) f.content)

/-- The whole "上傳素材" loop over the selected files. -/
def upload_assets (selected_site_id : Nat) (note_assets now : String)
    (files : List UploadedFile) (s : List Asset × List (String × String)) :
    List Asset × List (String × String) :=
  files.foldl (upload_asset_step selected_site_id note_assets now) s

/-- The 刪除此素材 handler (src/app.py lines 369-376). -/
def delete_asset (assets : List Asset) (selected_id : Nat) : List Asset :=
  assets.filter (fun a => a.id != selected_id)

/-- One iteration of the attachment-upload loop inside `attachment_section`
(src/app.py lines 140-162): write the blob under `uploads/<module>/`,
assign `newId` over the current attachments table, classify the declared
MIME type, store `title or f.name`, and append one row. -/
def upload_attachment_step (module : String) (selected_id : Nat)
    (title note now : String)
    (s : List Attachment × List (String × String)) (f : UploadedFile) :
    List Attachment × List (String × String) :=
  (s.1 ++ [⟨newId Attachment.id s.1, module, selected_id,
    (if title = "" then f.name else title), f.name,
    "uploads/" ++ module ++ "/" ++ f.name,
    simple_type_from_mime f.type, now, note⟩],
   write_file s.2 ("uploads/" ++ module ++ "/" ++ f.name) f.content)

/-- The whole upload loop of `attachment_section` (`if submitted and files:`
— an empty file list leaves the state untouched). -/
def upload_attachments (module : String) (selected_id : Nat)
    (title note now : String) (files : List UploadedFile)
    (s : List Attachment × List (String × String)) :
    List Attachment × List (String × String) :=
  files.foldl (upload_attachment_step module selected_id title note now) s

/-- The attachment listing filter (src/app.py lines 169-172):
`attachments[(attachments["module"] == module) & (attachments["ref_id"] == selected_id)]`. -/
def list_attachments (attachments : List Attachment) (module : String)
    (selected_id : Nat) : List Attachment :=
  attachments.filter (fun a => a.module == module && a.ref_id == selected_id)

/-- The 刪除此附件 handler (src/app.py lines 184-191): drop the record from
`attachments.csv`; the stored file is not removed from the upload
directory. -/
def delete_attachment (s : List Attachment × List (String × String))
    (att_id : Nat) : List Attachment × List (String × String) :=
  (s.1.filter (fun a => a.id != att_id), s.2)

/-- The 新增腳本 handler (src/app.py lines 418-437): reject an empty title, else append. -/
def create_script (scripts : List Script)
    (category title content version : String) (is_approved : Bool)
    (now : String) : List Script :=
  if title = "" then scripts
  else scripts ++ [⟨newId Script.id scripts, category, title, content,
    version, is_approved, now⟩]

/-- The 儲存修改 handler for a script (src/app.py lines 481-490): full field overwrite
plus an `updated_at` bump. -/
def edit_script (scripts : List Script) (selected_id : Nat)
    (category title content version : String) (is_approved : Bool)
    (now : String) : List Script :=
  updateFirst (fun s => s.id == selected_id)
    (fun s => ⟨s.id, category, title, content, version, is_approved, now⟩)
    scripts

/-- The 刪除此腳本 handler (src/app.py lines 492-499): rewrite `scripts.csv` and
`storyboards.csv`; `attachments.csv` is not among the files it touches. -/
def delete_script (scripts : List Script) (storyboards : List Storyboard)
    (attachments : List Attachment) (selected_id : Nat) :
    List Script × List Storyboard × List Attachment :=
  (scripts.filter (fun s => s.id != selected_id),
   storyboards.filter (fun sb => sb.script_id != selected_id),
   attachments)

/-- The 新增分鏡 handler (src/app.py lines 538-566): no required-field check — every
submit appends a row. -/
def create_storyboard (storyboards : List Storyboard)
    (selected_script_id : Nat) (shot_no description image_path note : String) :
    List Storyboard :=
  storyboards ++ [⟨newId Storyboard.id storyboards, selected_script_id,
    shot_no, description, image_path, note⟩]

/-- The 儲存修改 handler for a storyboard (src/app.py lines 604-610): only `shot_no`,
`description`, `note` are overwritten. -/
def edit_storyboard (storyboards : List Storyboard) (selected_id : Nat)
    (shot_no description note : String) : List Storyboard :=
  updateFirst (fun sb => sb.id == selected_id)
    (fun sb => ⟨sb.id, sb.script_id, shot_no, description, sb.image_path,
      note⟩) storyboards

/-- The 刪除此分鏡 handler (src/app.py lines 612-616). -/
def delete_storyboard (storyboards : List Storyboard) (selected_id : Nat) :
    List Storyboard :=
  storyboards.filter (fun sb => sb.id != selected_id)

/-- The 新增部門 / 工班 handler (src/app.py lines 649-664): reject an empty name. -/
def create_department (departments : List Department)
    (dept_type name role contact note : String) : List Department :=
  if name = "" then departments
  else departments ++ [⟨newId Department.id departments, dept_type, name,
    role, contact, note⟩]

/-- The 儲存修改 handler for a department (src/app.py lines 698-706). -/
def edit_department (departments : List Department) (selected_id : Nat)
    (dept_type name role contact note : String) : List Department :=
  updateFirst (fun d => d.id == selected_id)
    (fun d => ⟨d.id, dept_type, name, role, contact, note⟩) departments

/-- The 刪除此項目 handler (src/app.py lines 708-712). -/
def delete_department (departments : List Department) (selected_id : Nat) :
    List Department :=
  departments.filter (fun d => d.id != selected_id)

/-- The 新增拍攝時段 handler (src/app.py lines 764-781): the handler has no
required-field check — every submit appends a row. -/
def create_schedule (schedules : List Schedule)
    (date start_time end_time location scene_desc responsible note : String) :
    List Schedule :=
  schedules ++ [⟨newId Schedule.id schedules, date, start_time, end_time,
    location, scene_desc, responsible, note⟩]

/-- The 儲存修改 handler for a schedule slot (src/app.py lines 843-853). -/
def edit_schedule (schedules : List Schedule) (selected_id : Nat)
    (date start_time end_time location scene_desc responsible note : String) :
    List Schedule :=
  updateFirst (fun s => s.id == selected_id)
    (fun s => ⟨s.id, date, start_time, end_time, location, scene_desc,
      responsible, note⟩) schedules

/-- The 刪除此時段 handler (src/app.py lines 855-859). -/
def delete_schedule (schedules : List Schedule) (selected_id : Nat) :
    List Schedule :=
  schedules.filter (fun s => s.id != selected_id)

/-- The 新增餐食安排 handler (src/app.py lines 885-901): no required-field check —
every submit appends a row. -/
def create_meal (meals : List Meal)
    (date meal_type time people vendor note : String) : List Meal :=
  meals ++ [⟨newId Meal.id meals, date, meal_type, time, people, vendor,
    note⟩]

/-- The 儲存修改 handler for a meal (src/app.py lines 958-967). -/
def edit_meal (meals : List Meal) (selected_id : Nat)
    (date meal_type time people vendor note : String) : List Meal :=
  updateFirst (fun m => m.id == selected_id)
    (fun m => ⟨m.id, date, meal_type, time, people, vendor, note⟩) meals

/-- The 刪除此安排 handler (src/app.py lines 969-973). -/
def delete_meal (meals : List Meal) (selected_id : Nat) : List Meal :=
  meals.filter (fun m => m.id != selected_id)

/-- The 新增剪輯任務 handler (src/app.py lines 1022-1039): reject an empty clip name. -/
def create_editing_task (tasks : List EditingTask)
    (clip_name type editor status version now note : String) :
    List EditingTask :=
  if clip_name = "" then tasks
  else tasks ++ [⟨newId EditingTask.id tasks, clip_name, type, editor,
    status, version, now, note⟩]

/-- The 儲存修改 handler for an editing task (src/app.py lines 1091-1101): overwrite
plus a `last_update` bump. -/
def edit_editing_task (tasks : List EditingTask) (selected_id : Nat)
    (clip_name type editor status version note now : String) :
    List EditingTask :=
  updateFirst (fun t => t.id == selected_id)
    (fun t => ⟨t.id, clip_name, type, editor, status, version, now, note⟩)
    tasks

/-- The 刪除此任務 handler (src/app.py lines 1103-1107). -/
def delete_editing_task (tasks : List EditingTask) (selected_id : Nat) :
    List EditingTask :=
  tasks.filter (fun t => t.id != selected_id)

/-- A color pixel of the dashboard's overlay images (channel values 0-255). -/
structure Pixel where
  r : Nat
  g : Nat
  b : Nat
  deriving DecidableEq

/-- Modelled from the spec: the comparison dashboard's background removal is
not part of `src/` (only the project-management app is); per the spec it
"marks a pixel transparent iff all three color channels exceed the fixed
threshold 240". -/
def overlay_transparent (p : Pixel) : Bool :=
  decide (240 < p.r) && decide (240 < p.g) && decide (240 < p.b)

/-! ## Generic lemmas about id assignment -/

theorem foldl_max_le_self (l : List Nat) (a : Nat) : a ≤ l.foldl Nat.max a := by
  induction l generalizing a with
  | nil => exact Nat.le_refl a
  | cons x xs ih => exact Nat.le_trans (Nat.le_max_left a x) (ih (Nat.max a x))

theorem mem_le_foldl_max (l : List Nat) (a x : Nat) (hx : x ∈ l) :
    x ≤ l.foldl Nat.max a := by
  induction l generalizing a with
  | nil => cases hx
  | cons y ys ih =>
    cases hx with
    | head => exact Nat.le_trans (Nat.le_max_right a x) (foldl_max_le_self ys (Nat.max a x))
    | tail _ h => exact ih (Nat.max a y) h

theorem foldl_max_eq_or_mem (l : List Nat) (a : Nat) :
    l.foldl Nat.max a = a ∨ l.foldl Nat.max a ∈ l := by
  induction l generalizing a with
  | nil => exact Or.inl rfl
  | cons x xs ih =>
    rcases ih (Nat.max a x) with h | h
    · rw [List.foldl_cons, h]
      rcases Nat.le_total a x with hax | hxa
      · have hx : Nat.max a x = x := Nat.max_eq_right hax
        rw [hx]
        exact Or.inr (List.mem_cons_self x xs)
      · have hx : Nat.max a x = a := Nat.max_eq_left hxa
        rw [hx]
        exact Or.inl rfl
    · exact Or.inr (List.mem_cons_of_mem x h)

theorem mem_le_maxId {α : Type} (getId : α → Nat) (l : List α) (x : α)
    (hx : x ∈ l) : getId x ≤ maxId getId l :=
  mem_le_foldl_max (l.map getId) 0 (getId x) (List.mem_map_of_mem getId hx)

theorem maxId_mem {α : Type} (getId : α → Nat) (l : List α) (hl : l ≠ []) :
    maxId getId l ∈ l.map getId := by
  rcases foldl_max_eq_or_mem (l.map getId) 0 with h | h
  · cases l with
    | nil => exact absurd rfl hl
    | cons y ys =>
      have hy : getId y ∈ (y :: ys).map getId :=
        List.mem_map_of_mem getId (List.mem_cons_self y ys)
      have hle : getId y ≤ maxId getId (y :: ys) :=
        mem_le_maxId getId (y :: ys) y (List.mem_cons_self y ys)
      have h0 : maxId getId (y :: ys) = 0 := h
      have : getId y = 0 := Nat.le_zero.mp (h0 ▸ hle)
      rw [h0, ← this]
      exact hy
  · exact h

theorem getId_lt_newId {α : Type} (getId : α → Nat) (l : List α) (x : α)
    (hx : x ∈ l) : getId x < newId getId l := by
  have hlen : 0 < l.length := List.length_pos.mpr (List.ne_nil_of_mem hx)
  unfold newId
  rw [if_pos hlen]
  exact Nat.lt_succ_of_le (mem_le_maxId getId l x hx)

theorem newId_of_ne_nil {α : Type} (getId : α → Nat) (l : List α)
    (hl : l ≠ []) : newId getId l = maxId getId l + 1 := by
  unfold newId
  rw [if_pos (List.length_pos.mpr hl)]

theorem newId_nil {α : Type} (getId : α → Nat) : newId getId ([] : List α) = 1 := rfl

/-! ## Generic lemmas about id distinctness -/

/-- The per-table invariant the spec states: all ids in the table are
pairwise distinct. -/
@[reducible] def ids_distinct {α : Type} (getId : α → Nat) (l : List α) : Prop :=
  (l.map getId).Nodup

theorem nodup_concat_of_not_mem (l : List Nat) (a : Nat) (h : l.Nodup)
    (ha : a ∉ l) : (l ++ [a]).Nodup := by
  induction l with
  | nil => simp
  | cons x xs ih =>
    rcases List.nodup_cons.mp h with ⟨hx, hxs⟩
    have hax : a ∉ xs := fun hm => ha (List.mem_cons_of_mem x hm)
    refine List.nodup_cons.mpr ⟨?_, ih hxs hax⟩
    intro hmem
    rcases List.mem_append.mp hmem with h1 | h1
    · exact hx h1
    · rw [List.mem_singleton.mp h1] at ha
      exact ha (List.mem_cons_self a xs)

theorem ids_distinct_append_new {α : Type} (getId : α → Nat) (l : List α)
    (x : α) (hx : getId x = newId getId l) (h : ids_distinct getId l) :
    ids_distinct getId (l ++ [x]) := by
  unfold ids_distinct
  rw [List.map_append, List.map_singleton]
  apply nodup_concat_of_not_mem _ _ h
  intro hmem
  rcases List.mem_map.mp hmem with ⟨y, hy, hyx⟩
  have hlt := getId_lt_newId getId l y hy
  rw [hyx, hx] at hlt
  exact Nat.lt_irrefl _ hlt

theorem ids_distinct_filter {α : Type} (getId : α → Nat) (p : α → Bool)
    (l : List α) (h : ids_distinct getId l) :
    ids_distinct getId (l.filter p) :=
  List.Nodup.sublist (List.Sublist.map getId (List.filter_sublist l)) h

theorem map_getId_updateFirst {α : Type} (getId : α → Nat) (p : α → Bool)
    (f : α → α) (hf : ∀ x, getId (f x) = getId x) (l : List α) :
    (updateFirst p f l).map getId = l.map getId := by
  induction l with
  | nil => rfl
  | cons x xs ih =>
    cases hpx : p x with
    | true => simp [updateFirst, hpx, hf x]
    | false => simp [updateFirst, hpx, ih]

theorem ids_distinct_updateFirst {α : Type} (getId : α → Nat) (p : α → Bool)
    (f : α → α) (hf : ∀ x, getId (f x) = getId x) (l : List α)
    (h : ids_distinct getId l) : ids_distinct getId (updateFirst p f l) := by
  unfold ids_distinct
  rw [map_getId_updateFirst getId p f hf l]
  exact h

theorem foldl_preserve {σ τ : Type} (P : σ → Prop) (g : σ → τ → σ)
    (hg : ∀ s t, P s → P (g s t)) (ts : List τ) (s : σ) (h : P s) :
    P (ts.foldl g s) := by
  induction ts generalizing s with
  | nil => exact h
  | cons t ts ih => exact ih (g s t) (hg s t h)

/-! ## Lemmas about the prefix test -/

theorem startswith_chars_head (p : Char) (ps cs : List Char)
    (h : startswith_chars (p :: ps) cs = true) : ∃ rest, cs = p :: rest := by
  cases cs with
  | nil => simp [startswith_chars] at h
  | cons c cs2 =>
    simp [startswith_chars] at h
    exact ⟨cs2, by rw [h.1]⟩

theorem startswith_chars_head_ne (p q : Char) (ps qs cs : List Char)
    (hpq : p ≠ q) (h : startswith_chars (p :: ps) cs = true) :
    startswith_chars (q :: qs) cs = false := by
  obtain ⟨rest, hrest⟩ := startswith_chars_head p ps cs h
  subst hrest
  simp [startswith_chars]
  intro hq
  exact (hpq hq.symm).elim

theorem startswith_video_not_image (m : String)
    (h : startswith m "video" = true) : startswith m "image" = false :=
  startswith_chars_head_ne 'v' 'i' "ideo".data "mage".data m.data
    (by decide) h

theorem startswith_ne_empty (m : String) (p : Char) (ps : List Char)
    (h : startswith_chars (p :: ps) m.data = true) : m ≠ "" := by
  intro he
  rw [he] at h
  exact absurd h (by simp [startswith_chars])

/-! ## Claim theorems -/

/-- C6: uploaded files are classified by declared MIME type into
{image, video, pdf, other} via prefix/exact match: a type beginning with
"image" gives image, one beginning with "video" gives video, exactly
"application/pdf" gives pdf, everything else (including "text/plain" and an
empty or missing type) gives other; in particular "image/png" gives image. -/
theorem c6_mime_classification :
    (∀ m : String, startswith m "image" = true →
        simple_type_from_mime (some m) = "image") ∧
    (∀ m : String, startswith m "video" = true →
        simple_type_from_mime (some m) = "video") ∧
    simple_type_from_mime (some "application/pdf") = "pdf" ∧
    (∀ m : String, startswith m "image" = false →
        startswith m "video" = false → m ≠ "application/pdf" →
        simple_type_from_mime (some m) = "other") ∧
    simple_type_from_mime none = "other" ∧
    simple_type_from_mime (some "") = "other" ∧
    simple_type_from_mime (some "text/plain") = "other" ∧
    simple_type_from_mime (some "image/png") = "image" := by
  refine ⟨?_, ?_, by decide, ?_, rfl, by decide, by decide, by decide⟩
  · intro m h
    have hne : m ≠ "" := startswith_ne_empty m 'i' "mage".data h
    simp [simple_type_from_mime, hne, h]
  · intro m h
    have hne : m ≠ "" := startswith_ne_empty m 'v' "ideo".data h
    have hni : startswith m "image" = false := startswith_video_not_image m h
    simp [simple_type_from_mime, hne, h, hni]
  · intro m h1 h2 h3
    by_cases hne : m = ""
    · simp [simple_type_from_mime, hne]
    · simp [simple_type_from_mime, hne, h1, h2, h3]

/-- Witness for C6 at concrete MIME types. -/
theorem c6_witness :
    simple_type_from_mime (some "image/png") = "image" ∧
    simple_type_from_mime (some "video/mp4") = "video" ∧
    simple_type_from_mime (some "text/plain") = "other" :=
  ⟨c6_mime_classification.1 "image/png" (by decide),
   c6_mime_classification.2.1 "video/mp4" (by decide),
   c6_mime_classification.2.2.2.1 "text/plain" (by decide) (by decide)
     (by decide)⟩

/-- C9: in the comparison dashboard's overlay processing, background removal
marks a pixel transparent iff all three color channels exceed the fixed
threshold 240; a pure-black pixel is never made transparent and a pure-white
pixel always is.  (The dashboard is modelled from the spec: its code is not
in `src/`.) -/
theorem c9_background_removal :
    (∀ p : Pixel, overlay_transparent p = true ↔
        (240 < p.r ∧ 240 < p.g ∧ 240 < p.b)) ∧
    overlay_transparent ⟨0, 0, 0⟩ = false ∧
    overlay_transparent ⟨255, 255, 255⟩ = true := by
  refine ⟨?_, by decide, by decide⟩
  intro p
  simp [overlay_transparent, and_assoc]

/-- C5: listing attachments filters by exact match on (module, ref_id):
every attachment returned for (X, Y) has module X and ref_id Y, and an
attachment listed for (X, Y) is never returned for (X, Z) with Z ≠ Y. -/
theorem c5_listing_filter :
    (∀ (attachments : List Attachment) (module : String) (y : Nat)
        (a : Attachment), a ∈ list_attachments attachments module y →
        a.module = module ∧ a.ref_id = y) ∧
    (∀ (attachments : List Attachment) (module : String) (y z : Nat)
        (a : Attachment), a ∈ list_attachments attachments module y →
        z ≠ y → a ∉ list_attachments attachments module z) := by
  constructor
  · intro atts module y a h
    simp [list_attachments, List.mem_filter] at h
    exact ⟨h.2.1, h.2.2⟩
  · intro atts module y z a h hzy hcontra
    simp [list_attachments, List.mem_filter] at h hcontra
    exact hzy (by rw [← hcontra.2.2, h.2.2])

/-- Witness for C5 on a concrete one-row attachments table. -/
theorem c5_witness :
    ((⟨1, "site", 1, "t", "f", "p", "other", "now", ""⟩ : Attachment).module
        = "site" ∧
      (⟨1, "site", 1, "t", "f", "p", "other", "now", ""⟩ : Attachment).ref_id
        = 1) ∧
    (⟨1, "site", 1, "t", "f", "p", "other", "now", ""⟩ : Attachment) ∉
      list_attachments [⟨1, "site", 1, "t", "f", "p", "other", "now", ""⟩]
        "site" 2 :=
  ⟨c5_listing_filter.1 [⟨1, "site", 1, "t", "f", "p", "other", "now", ""⟩]
      "site" 1 ⟨1, "site", 1, "t", "f", "p", "other", "now", ""⟩ (by decide),
   c5_listing_filter.2 [⟨1, "site", 1, "t", "f", "p", "other", "now", ""⟩]
      "site" 1 2 ⟨1, "site", 1, "t", "f", "p", "other", "now", ""⟩
      (by decide) (by decide)⟩

/-- C7: deleting an attachment removes exactly the records with that id from
the attachments table (every other record stays), and the upload directory
on disk is left untouched. -/
theorem c7_delete_attachment :
    ∀ (s : List Attachment × List (String × String)) (att_id : Nat)
      (a : Attachment),
      (a ∈ (delete_attachment s att_id).1 ↔ (a ∈ s.1 ∧ a.id ≠ att_id)) ∧
      (delete_attachment s att_id).2 = s.2 := by
  intro s att_id a
  constructor
  · simp [delete_attachment, List.mem_filter]
  · rfl

/-- C10: an attachment record created by an upload stores the shared form
title, except that an empty shared title falls back to the uploaded file's
own name (`title or f.name`). -/
theorem c10_title_fallback :
    ∀ (module : String) (ref : Nat) (title note now : String)
      (files : List UploadedFile)
      (s : List Attachment × List (String × String)) (a : Attachment),
      a ∈ (upload_attachments module ref title note now files s).1 →
      a ∈ s.1 ∨ ∃ f, f ∈ files ∧ a.file_name = f.name ∧
        a.title = (if title = "" then f.name else title) := by
  intro module ref title note now files
  induction files with
  | nil => exact fun s a h => Or.inl h
  | cons f fs ih =>
    intro s a h
    rcases ih (upload_attachment_step module ref title note now s f) a h
      with hin | ⟨g, hg, hg1, hg2⟩
    · rcases List.mem_append.mp hin with hold | hnew
      · exact Or.inl hold
      · rcases List.mem_singleton.mp hnew with rfl
        exact Or.inr ⟨f, List.mem_cons_self f fs, rfl, rfl⟩
    · exact Or.inr ⟨g, List.mem_cons_of_mem f hg, hg1, hg2⟩

/-- Witness for C10: a single-file upload with an empty shared title stores
the file's own name as the record title. -/
theorem c10_witness :
    ((⟨1, "site", 7, "a.png", "a.png", "uploads/site/a.png", "image",
        "now", "n"⟩ : Attachment) ∈ ([] : List Attachment)) ∨
      ∃ f, f ∈ [(⟨"a.png", some "image/png", "bytes"⟩ : UploadedFile)] ∧
        (⟨1, "site", 7, "a.png", "a.png", "uploads/site/a.png", "image",
          "now", "n"⟩ : Attachment).file_name = f.name ∧
        (⟨1, "site", 7, "a.png", "a.png", "uploads/site/a.png", "image",
          "now", "n"⟩ : Attachment).title =
          (if ("" : String) = "" then f.name else "") :=
  c10_title_fallback "site" 7 "" "n" "now"
    [⟨"a.png", some "image/png", "bytes"⟩] ([], [])
    ⟨1, "site", 7, "a.png", "a.png", "uploads/site/a.png", "image",
      "now", "n"⟩ (by decide)

/-- C1: every create operation in the system (sites, scripts, storyboards,
departments, schedules, meals, editing tasks, attachments, assets) assigns
the new record the id max(existing ids) + 1 on a non-empty table and 1 on an
empty one.  The first clause characterizes the shared id policy `newId`
(`maxId` really is the maximum of the existing ids); the rest show each
create appends exactly one record carrying `newId` of its table. -/
theorem c1_next_id_policy :
    (∀ (α : Type) (getId : α → Nat) (l : List α),
        (l = [] → newId getId l = 1) ∧
        (l ≠ [] → newId getId l = maxId getId l + 1 ∧
          maxId getId l ∈ l.map getId ∧
          ∀ x ∈ l, getId x ≤ maxId getId l)) ∧
    (∀ (sites : List Site)
        (site_name address status visit_datetime note : String),
        site_name ≠ "" →
        create_site sites site_name address status visit_datetime note =
          sites ++ [⟨newId Site.id sites, site_name, address, status,
            visit_datetime, note⟩]) ∧
    (∀ (scripts : List Script) (category title content version : String)
        (is_approved : Bool) (now : String), title ≠ "" →
        create_script scripts category title content version is_approved now =
          scripts ++ [⟨newId Script.id scripts, category, title, content,
            version, is_approved, now⟩]) ∧
    (∀ (storyboards : List Storyboard) (sid : Nat)
        (shot_no description image_path note : String),
        create_storyboard storyboards sid shot_no description image_path
            note =
          storyboards ++ [⟨newId Storyboard.id storyboards, sid, shot_no,
            description, image_path, note⟩]) ∧
    (∀ (departments : List Department)
        (dept_type name role contact note : String), name ≠ "" →
        create_department departments dept_type name role contact note =
          departments ++ [⟨newId Department.id departments, dept_type, name,
            role, contact, note⟩]) ∧
    (∀ (schedules : List Schedule)
        (date start_time end_time location scene_desc responsible
          note : String),
        create_schedule schedules date start_time end_time location
            scene_desc responsible note =
          schedules ++ [⟨newId Schedule.id schedules, date, start_time,
            end_time, location, scene_desc, responsible, note⟩]) ∧
    (∀ (meals : List Meal) (date meal_type time people vendor note : String),
        create_meal meals date meal_type time people vendor note =
          meals ++ [⟨newId Meal.id meals, date, meal_type, time, people,
            vendor, note⟩]) ∧
    (∀ (tasks : List EditingTask)
        (clip_name type editor status version now note : String),
        clip_name ≠ "" →
        create_editing_task tasks clip_name type editor status version now
            note =
          tasks ++ [⟨newId EditingTask.id tasks, clip_name, type, editor,
            status, version, now, note⟩]) ∧
    (∀ (site_id : Nat) (note now : String)
        (s : List Asset × List (String × String)) (f : UploadedFile),
        (upload_asset_step site_id note now s f).1 =
          s.1 ++ [⟨newId Asset.id s.1, site_id, f.name, "assets/" ++ f.name,
            simple_type_from_mime f.type, now, note⟩]) ∧
    (∀ (module : String) (ref : Nat) (title note now : String)
        (s : List Attachment × List (String × String)) (f : UploadedFile),
        (upload_attachment_step module ref title note now s f).1 =
          s.1 ++ [⟨newId Attachment.id s.1, module, ref,
            (if title = "" then f.name else title), f.name,
            "uploads/" ++ module ++ "/" ++ f.name,
            simple_type_from_mime f.type, now, note⟩]) := by
  refine ⟨?_, ?_, ?_, fun _ _ _ _ _ _ => rfl, ?_, fun _ _ _ _ _ _ _ _ => rfl,
    fun _ _ _ _ _ _ _ => rfl, ?_, fun _ _ _ _ _ => rfl,
    fun _ _ _ _ _ _ _ => rfl⟩
  · intro α getId l
    refine ⟨fun h => by rw [h]; rfl, fun h => ⟨newId_of_ne_nil getId l h,
      maxId_mem getId l h, fun x hx => mem_le_maxId getId l x hx⟩⟩
  · intro sites site_name address status visit_datetime note h
    simp [create_site, h]
  · intro scripts category title content version is_approved now h
    simp [create_script, h]
  · intro departments dept_type name role contact note h
    simp [create_department, h]
  · intro tasks clip_name type editor status version now note h
    simp [create_editing_task, h]

/-- Witness for C1: a table whose single record has id 3 hands the next
record id 4, and empty tables hand out id 1. -/
theorem c1_witness :
    newId Site.id [⟨3, "A", "", "", "", ""⟩] =
      maxId Site.id [⟨3, "A", "", "", "", ""⟩] + 1 ∧
    maxId Site.id [⟨3, "A", "", "", "", ""⟩] = 3 ∧
    create_site [⟨3, "A", "", "", "", ""⟩] "B" "x" "y" "z" "w" =
      [⟨3, "A", "", "", "", ""⟩] ++
        [⟨newId Site.id [⟨3, "A", "", "", "", ""⟩], "B", "x", "y", "z",
          "w"⟩] ∧
    create_script [] "c" "T" "co" "v1" false "now" =
      [] ++ [⟨newId Script.id [], "c", "T", "co", "v1", false, "now"⟩] ∧
    create_department [] "d" "N" "r" "c" "n" =
      [] ++ [⟨newId Department.id [], "d", "N", "r", "c", "n"⟩] ∧
    create_editing_task [] "C" "t" "e" "s" "v" "now" "n" =
      [] ++ [⟨newId EditingTask.id [], "C", "t", "e", "s", "v", "now",
        "n"⟩] :=
  ⟨((c1_next_id_policy.1 Site Site.id [⟨3, "A", "", "", "", ""⟩]).2
      (by decide)).1,
   by decide,
   c1_next_id_policy.2.1 [⟨3, "A", "", "", "", ""⟩] "B" "x" "y" "z" "w"
     (by decide),
   c1_next_id_policy.2.2.1 [] "c" "T" "co" "v1" false "now" (by decide),
   c1_next_id_policy.2.2.2.2.1 [] "d" "N" "r" "c" "n" (by decide),
   c1_next_id_policy.2.2.2.2.2.2.2.1 [] "C" "t" "e" "s" "v" "now" "n"
     (by decide)⟩

/-- Counterexample to C2 as stated: create two sites (they get ids 1 and 2),
delete the site with id 2, and the next create assigns id 2 again — the id
of a previously deleted record is reused. -/
theorem c2_counterexample :
    ((⟨2, "B", "", "", "", ""⟩ : Site) ∈
        create_site (create_site [] "A" "" "" "" "") "B" "" "" "" "") ∧
    create_site
        (delete_site
          (create_site (create_site [] "A" "" "" "" "") "B" "" "" "" "")
          [] [] 2).1 "C" "" "" "" "" =
      [⟨1, "A", "", "", "", ""⟩, ⟨2, "C", "", "", "", ""⟩] := by
  decide

/-- C2 amended: the id assigned to a newly created record is distinct from
the id of every record currently present in that table (a previously deleted
id can be reassigned once every id at least as large has been deleted,
since the policy is max + 1 over the surviving records). -/
theorem c2_amended_fresh_ids :
    (∀ (α : Type) (getId : α → Nat) (l : List α) (x : α), x ∈ l →
        getId x ≠ newId getId l) ∧
    (∀ (sites : List Site)
        (site_name address status visit_datetime note : String),
        site_name ≠ "" →
        ∃ r, create_site sites site_name address status visit_datetime note =
          sites ++ [r] ∧ ∀ s ∈ sites, s.id ≠ r.id) ∧
    (∀ (schedules : List Schedule)
        (date start_time end_time location scene_desc responsible
          note : String),
        ∃ r, create_schedule schedules date start_time end_time location
            scene_desc responsible note = schedules ++ [r] ∧
          ∀ s ∈ schedules, s.id ≠ r.id) ∧
    (∀ (module : String) (ref : Nat) (title note now : String)
        (s : List Attachment × List (String × String)) (f : UploadedFile),
        ∃ r, (upload_attachment_step module ref title note now s f).1 =
          s.1 ++ [r] ∧ ∀ a ∈ s.1, a.id ≠ r.id) := by
  have fresh : ∀ (α : Type) (getId : α → Nat) (l : List α) (x : α),
      x ∈ l → getId x ≠ newId getId l := fun α getId l x hx =>
    Nat.ne_of_lt (getId_lt_newId getId l x hx)
  refine ⟨fresh, ?_, ?_, ?_⟩
  · intro sites site_name address status visit_datetime note h
    refine ⟨⟨newId Site.id sites, site_name, address, status,
      visit_datetime, note⟩, by simp [create_site, h], ?_⟩
    intro s hs
    exact fresh Site Site.id sites s hs
  · intro schedules date start_time end_time location scene_desc
      responsible note
    exact ⟨⟨newId Schedule.id schedules, date, start_time, end_time,
      location, scene_desc, responsible, note⟩, rfl,
      fun s hs => fresh Schedule Schedule.id schedules s hs⟩
  · intro module ref title note now s f
    exact ⟨⟨newId Attachment.id s.1, module, ref,
      (if title = "" then f.name else title), f.name,
      "uploads/" ++ module ++ "/" ++ f.name,
      simple_type_from_mime f.type, now, note⟩, rfl,
      fun a ha => fresh Attachment Attachment.id s.1 a ha⟩

/-- Witness for the amended C2 on concrete one-row tables. -/
theorem c2_amended_witness :
    Site.id ⟨5, "A", "", "", "", ""⟩ ≠
      newId Site.id [⟨5, "A", "", "", "", ""⟩] ∧
    (∃ r, create_site [⟨5, "A", "", "", "", ""⟩] "B" "" "" "" "" =
      [⟨5, "A", "", "", "", ""⟩] ++ [r] ∧
      ∀ s ∈ [(⟨5, "A", "", "", "", ""⟩ : Site)], s.id ≠ r.id) :=
  ⟨c2_amended_fresh_ids.1 Site Site.id [⟨5, "A", "", "", "", ""⟩]
      ⟨5, "A", "", "", "", ""⟩ (by decide),
   c2_amended_fresh_ids.2.1 [⟨5, "A", "", "", "", ""⟩] "B" "" "" "" ""
      (by decide)⟩

/-- Counterexample to C3 as stated: deleting site 1 leaves the attachment
with module "site" and ref_id 1 in the attachments table — the cascade does
not reach the attachments table. -/
theorem c3_counterexample :
    (delete_site [⟨1, "A", "", "", "", ""⟩] []
        [⟨1, "site", 1, "t", "f", "p", "other", "now", ""⟩] 1).1 = [] ∧
    (⟨1, "site", 1, "t", "f", "p", "other", "now", ""⟩ : Attachment) ∈
      (delete_site [⟨1, "A", "", "", "", ""⟩] []
        [⟨1, "site", 1, "t", "f", "p", "other", "now", ""⟩] 1).2.2 ∧
    (⟨1, "site", 1, "t", "f", "p", "other", "now", ""⟩ : Attachment).module
      = "site" ∧
    (⟨1, "site", 1, "t", "f", "p", "other", "now", ""⟩ : Attachment).ref_id
      = 1 := by
  decide

/-- C3 amended: deleting a parent cascades exactly to the one child table
its handler declares (assets for a site, storyboards for a script): no
child with the parent's foreign key survives there, but the attachments
table is left entirely unchanged, so attachment records whose ref_id is the
deleted parent's id remain. -/
theorem c3_amended_cascade :
    (∀ (sites : List Site) (assets : List Asset)
        (attachments : List Attachment) (i : Nat),
        (∀ s ∈ (delete_site sites assets attachments i).1, s.id ≠ i) ∧
        (∀ a ∈ (delete_site sites assets attachments i).2.1,
          a.site_id ≠ i) ∧
        (delete_site sites assets attachments i).2.2 = attachments) ∧
    (∀ (scripts : List Script) (storyboards : List Storyboard)
        (attachments : List Attachment) (i : Nat),
        (∀ s ∈ (delete_script scripts storyboards attachments i).1,
          s.id ≠ i) ∧
        (∀ sb ∈ (delete_script scripts storyboards attachments i).2.1,
          sb.script_id ≠ i) ∧
        (delete_script scripts storyboards attachments i).2.2 =
          attachments) := by
  constructor
  · intro sites assets attachments i
    refine ⟨?_, ?_, rfl⟩
    · intro s hs
      simp [delete_site, List.mem_filter] at hs
      exact hs.2
    · intro a ha
      simp [delete_site, List.mem_filter] at ha
      exact ha.2
  · intro scripts storyboards attachments i
    refine ⟨?_, ?_, rfl⟩
    · intro s hs
      simp [delete_script, List.mem_filter] at hs
      exact hs.2
    · intro sb hsb
      simp [delete_script, List.mem_filter] at hsb
      exact hsb.2

/-- Witness for the amended C3 on a concrete two-site state. -/
theorem c3_amended_witness :
    (⟨2, "B", "", "", "", ""⟩ : Site).id ≠ 1 ∧
    (delete_site [⟨1, "A", "", "", "", ""⟩, ⟨2, "B", "", "", "", ""⟩] []
      [⟨1, "site", 1, "t", "f", "p", "other", "now", ""⟩] 1).2.2 =
      [⟨1, "site", 1, "t", "f", "p", "other", "now", ""⟩] :=
  ⟨(c3_amended_cascade.1
      [⟨1, "A", "", "", "", ""⟩, ⟨2, "B", "", "", "", ""⟩] []
      [⟨1, "site", 1, "t", "f", "p", "other", "now", ""⟩] 1).1
      ⟨2, "B", "", "", "", ""⟩ (by decide),
   (c3_amended_cascade.1
      [⟨1, "A", "", "", "", ""⟩, ⟨2, "B", "", "", "", ""⟩] []
      [⟨1, "site", 1, "t", "f", "p", "other", "now", ""⟩] 1).2.2⟩

/-- Counterexample to C4 as stated: the schedule and meal create forms have
no required-field validation — a submit with every text field empty still
writes a record. -/
theorem c4_counterexample :
    create_schedule [] "2025-01-01" "09:00:00" "10:00:00" "" "" "" "" =
      [⟨1, "2025-01-01", "09:00:00", "10:00:00", "", "", "", ""⟩] ∧
    create_meal [] "2025-01-01" "lunch" "12:00:00" "" "" "" =
      [⟨1, "2025-01-01", "lunch", "12:00:00", "", "", ""⟩] := by
  decide

/-- C4 amended: only the sites, scripts, departments and editing-tasks
create forms validate their required field (an empty one aborts with no
write); the schedule and meal create forms accept any input and always
append a record. -/
theorem c4_amended_validation :
    (∀ (sites : List Site) (address status visit_datetime note : String),
        create_site sites "" address status visit_datetime note = sites) ∧
    (∀ (scripts : List Script) (category content version : String)
        (is_approved : Bool) (now : String),
        create_script scripts category "" content version is_approved now =
          scripts) ∧
    (∀ (departments : List Department) (dept_type role contact note : String),
        create_department departments dept_type "" role contact note =
          departments) ∧
    (∀ (tasks : List EditingTask)
        (type editor status version now note : String),
        create_editing_task tasks "" type editor status version now note =
          tasks) ∧
    (∀ (schedules : List Schedule)
        (date start_time end_time location scene_desc responsible
          note : String),
        ∃ r, create_schedule schedules date start_time end_time location
          scene_desc responsible note = schedules ++ [r]) ∧
    (∀ (meals : List Meal) (date meal_type time people vendor note : String),
        ∃ r, create_meal meals date meal_type time people vendor note =
          meals ++ [r]) := by
  refine ⟨fun _ _ _ _ _ => rfl, fun _ _ _ _ _ _ => rfl,
    fun _ _ _ _ _ => rfl, fun _ _ _ _ _ _ _ => rfl,
    fun _ _ _ _ _ _ _ _ => ⟨_, rfl⟩, fun _ _ _ _ _ _ _ => ⟨_, rfl⟩⟩

/-- C8: starting from a table whose ids are pairwise distinct, every create
(including a multi-file upload appending one record per file), edit and
delete operation of the system yields a table whose ids are still pairwise
distinct. -/
theorem c8_id_uniqueness_invariant :
    (∀ (sites : List Site) (sn a st v n : String),
        ids_distinct Site.id sites →
        ids_distinct Site.id (create_site sites sn a st v n)) ∧
    (∀ (sites : List Site) (i : Nat) (sn a st v n : String),
        ids_distinct Site.id sites →
        ids_distinct Site.id (edit_site sites i sn a st v n)) ∧
    (∀ (sites : List Site) (assets : List Asset)
        (attachments : List Attachment) (i : Nat),
        ids_distinct Site.id sites → ids_distinct Asset.id assets →
        ids_distinct Site.id (delete_site sites assets attachments i).1 ∧
        ids_distinct Asset.id (delete_site sites assets attachments i).2.1) ∧
    (∀ (sid : Nat) (note now : String) (files : List UploadedFile)
        (s : List Asset × List (String × String)),
        ids_distinct Asset.id s.1 →
        ids_distinct Asset.id (upload_assets sid note now files s).1) ∧
    (∀ (assets : List Asset) (i : Nat), ids_distinct Asset.id assets →
        ids_distinct Asset.id (delete_asset assets i)) ∧
    (∀ (module : String) (ref : Nat) (title note now : String)
        (files : List UploadedFile)
        (s : List Attachment × List (String × String)),
        ids_distinct Attachment.id s.1 →
        ids_distinct Attachment.id
          (upload_attachments module ref title note now files s).1) ∧
    (∀ (s : List Attachment × List (String × String)) (i : Nat),
        ids_distinct Attachment.id s.1 →
        ids_distinct Attachment.id (delete_attachment s i).1) ∧
    (∀ (scripts : List Script) (c t co v : String) (ap : Bool)
        (now : String),
        ids_distinct Script.id scripts →
        ids_distinct Script.id (create_script scripts c t co v ap now)) ∧
    (∀ (scripts : List Script) (i : Nat) (c t co v : String) (ap : Bool)
        (now : String),
        ids_distinct Script.id scripts →
        ids_distinct Script.id (edit_script scripts i c t co v ap now)) ∧
    (∀ (scripts : List Script) (storyboards : List Storyboard)
        (attachments : List Attachment) (i : Nat),
        ids_distinct Script.id scripts →
        ids_distinct Storyboard.id storyboards →
        ids_distinct Script.id
            (delete_script scripts storyboards attachments i).1 ∧
        ids_distinct Storyboard.id
            (delete_script scripts storyboards attachments i).2.1) ∧
    (∀ (sbs : List Storyboard) (sid : Nat) (sh d ip n : String),
        ids_distinct Storyboard.id sbs →
        ids_distinct Storyboard.id (create_storyboard sbs sid sh d ip n)) ∧
    (∀ (sbs : List Storyboard) (i : Nat) (sh d n : String),
        ids_distinct Storyboard.id sbs →
        ids_distinct Storyboard.id (edit_storyboard sbs i sh d n)) ∧
    (∀ (sbs : List Storyboard) (i : Nat),
        ids_distinct Storyboard.id sbs →
        ids_distinct Storyboard.id (delete_storyboard sbs i)) ∧
    (∀ (ds : List Department) (dt nm r c n : String),
        ids_distinct Department.id ds →
        ids_distinct Department.id (create_department ds dt nm r c n)) ∧
    (∀ (ds : List Department) (i : Nat) (dt nm r c n : String),
        ids_distinct Department.id ds →
        ids_distinct Department.id (edit_department ds i dt nm r c n)) ∧
    (∀ (ds : List Department) (i : Nat),
        ids_distinct Department.id ds →
        ids_distinct Department.id (delete_department ds i)) ∧
    (∀ (ss : List Schedule) (d st et lo sc re n : String),
        ids_distinct Schedule.id ss →
        ids_distinct Schedule.id (create_schedule ss d st et lo sc re n)) ∧
    (∀ (ss : List Schedule) (i : Nat) (d st et lo sc re n : String),
        ids_distinct Schedule.id ss →
        ids_distinct Schedule.id (edit_schedule ss i d st et lo sc re n)) ∧
    (∀ (ss : List Schedule) (i : Nat),
        ids_distinct Schedule.id ss →
        ids_distinct Schedule.id (delete_schedule ss i)) ∧
    (∀ (ms : List Meal) (d mt t p v n : String),
        ids_distinct Meal.id ms →
        ids_distinct Meal.id (create_meal ms d mt t p v n)) ∧
    (∀ (ms : List Meal) (i : Nat) (d mt t p v n : String),
        ids_distinct Meal.id ms →
        ids_distinct Meal.id (edit_meal ms i d mt t p v n)) ∧
    (∀ (ms : List Meal) (i : Nat),
        ids_distinct Meal.id ms →
        ids_distinct Meal.id (delete_meal ms i)) ∧
    (∀ (ts : List EditingTask) (cn ty e st v now n : String),
        ids_distinct EditingTask.id ts →
        ids_distinct EditingTask.id
          (create_editing_task ts cn ty e st v now n)) ∧
    (∀ (ts : List EditingTask) (i : Nat) (cn ty e st v n now : String),
        ids_distinct EditingTask.id ts →
        ids_distinct EditingTask.id
          (edit_editing_task ts i cn ty e st v n now)) ∧
    (∀ (ts : List EditingTask) (i : Nat),
        ids_distinct EditingTask.id ts →
        ids_distinct EditingTask.id (delete_editing_task ts i)) := by
  refine ⟨?_, ?_, ?_, ?_, ?_, ?_, ?_, ?_, ?_, ?_, ?_, ?_, ?_, ?_, ?_, ?_,
    ?_, ?_, ?_, ?_, ?_, ?_, ?_, ?_, ?_⟩
  · intro sites sn a st v n h
    unfold create_site
    split
    · exact h
    · exact ids_distinct_append_new Site.id sites _ rfl h
  · exact fun sites i sn a st v n h =>
      ids_distinct_updateFirst Site.id (fun s => s.id == i)
        (fun s => ⟨s.id, sn, a, st, v, n⟩) (fun x => rfl) sites h
  · exact fun sites assets attachments i h1 h2 =>
      ⟨ids_distinct_filter Site.id _ sites h1,
       ids_distinct_filter Asset.id _ assets h2⟩
  · exact fun sid note now files s h =>
      foldl_preserve (fun st => ids_distinct Asset.id st.1)
        (upload_asset_step sid note now)
        (fun st f hf => ids_distinct_append_new Asset.id st.1 _ rfl hf)
        files s h
  · exact fun assets i h => ids_distinct_filter Asset.id _ assets h
  · exact fun module ref title note now files s h =>
      foldl_preserve (fun st => ids_distinct Attachment.id st.1)
        (upload_attachment_step module ref title note now)
        (fun st f hf => ids_distinct_append_new Attachment.id st.1 _ rfl hf)
        files s h
  · exact fun s i h => ids_distinct_filter Attachment.id _ s.1 h
  · intro scripts c t co v ap now h
    unfold create_script
    split
    · exact h
    · exact ids_distinct_append_new Script.id scripts _ rfl h
  · exact fun scripts i c t co v ap now h =>
      ids_distinct_updateFirst Script.id (fun s => s.id == i)
        (fun s => ⟨s.id, c, t, co, v, ap, now⟩) (fun x => rfl) scripts h
  · exact fun scripts storyboards attachments i h1 h2 =>
      ⟨ids_distinct_filter Script.id _ scripts h1,
       ids_distinct_filter Storyboard.id _ storyboards h2⟩
  · exact fun sbs sid sh d ip n h =>
      ids_distinct_append_new Storyboard.id sbs _ rfl h
  · exact fun sbs i sh d n h =>
      ids_distinct_updateFirst Storyboard.id (fun sb => sb.id == i)
        (fun sb => ⟨sb.id, sb.script_id, sh, d, sb.image_path, n⟩)
        (fun x => rfl) sbs h
  · exact fun sbs i h => ids_distinct_filter Storyboard.id _ sbs h
  · intro ds dt nm r c n h
    unfold create_department
    split
    · exact h
    · exact ids_distinct_append_new Department.id ds _ rfl h
  · exact fun ds i dt nm r c n h =>
      ids_distinct_updateFirst Department.id (fun d0 => d0.id == i)
        (fun d0 => ⟨d0.id, dt, nm, r, c, n⟩) (fun x => rfl) ds h
  · exact fun ds i h => ids_distinct_filter Department.id _ ds h
  · exact fun ss d st et lo sc re n h =>
      ids_distinct_append_new Schedule.id ss _ rfl h
  · exact fun ss i d st et lo sc re n h =>
      ids_distinct_updateFirst Schedule.id (fun s0 => s0.id == i)
        (fun s0 => ⟨s0.id, d, st, et, lo, sc, re, n⟩) (fun x => rfl) ss h
  · exact fun ss i h => ids_distinct_filter Schedule.id _ ss h
  · exact fun ms d mt t p v n h =>
      ids_distinct_append_new Meal.id ms _ rfl h
  · exact fun ms i d mt t p v n h =>
      ids_distinct_updateFirst Meal.id (fun m0 => m0.id == i)
        (fun m0 => ⟨m0.id, d, mt, t, p, v, n⟩) (fun x => rfl) ms h
  · exact fun ms i h => ids_distinct_filter Meal.id _ ms h
  · intro ts cn ty e st v now n h
    unfold create_editing_task
    split
    · exact h
    · exact ids_distinct_append_new EditingTask.id ts _ rfl h
  · exact fun ts i cn ty e st v n now h =>
      ids_distinct_updateFirst EditingTask.id (fun t0 => t0.id == i)
        (fun t0 => ⟨t0.id, cn, ty, e, st, v, now, n⟩) (fun x => rfl) ts h
  · exact fun ts i h => ids_distinct_filter EditingTask.id _ ts h

/-- Witness for C8: every operation applied to a concrete one-row table with
distinct ids. -/
theorem c8_witness :
    ids_distinct Site.id
      (create_site [⟨1, "A", "", "", "", ""⟩] "B" "" "" "" "") ∧
    ids_distinct Site.id
      (edit_site [⟨1, "A", "", "", "", ""⟩] 1 "B" "" "" "" "") ∧
    (ids_distinct Site.id
        (delete_site [⟨1, "A", "", "", "", ""⟩]
          [⟨1, 1, "f", "p", "t", "u", ""⟩] [] 1).1 ∧
      ids_distinct Asset.id
        (delete_site [⟨1, "A", "", "", "", ""⟩]
          [⟨1, 1, "f", "p", "t", "u", ""⟩] [] 1).2.1) ∧
    ids_distinct Asset.id
      (upload_assets 1 "" "now" [⟨"a", some "image/png", "b"⟩]
        ([⟨1, 1, "f", "p", "t", "u", ""⟩], [])).1 ∧
    ids_distinct Asset.id
      (delete_asset [⟨1, 1, "f", "p", "t", "u", ""⟩] 1) ∧
    ids_distinct Attachment.id
      (upload_attachments "site" 1 "T" "" "now" [⟨"a", none, "b"⟩]
        ([⟨1, "site", 1, "t", "f", "p", "o", "u", ""⟩], [])).1 ∧
    ids_distinct Attachment.id
      (delete_attachment ([⟨1, "site", 1, "t", "f", "p", "o", "u", ""⟩], [])
        1).1 ∧
    ids_distinct Script.id
      (create_script [⟨1, "c", "T", "co", "v", false, "u"⟩] "c" "T2" "co"
        "v" false "u") ∧
    ids_distinct Script.id
      (edit_script [⟨1, "c", "T", "co", "v", false, "u"⟩] 1 "c" "T2" "co"
        "v" true "u") ∧
    (ids_distinct Script.id
        (delete_script [⟨1, "c", "T", "co", "v", false, "u"⟩]
          [⟨1, 1, "s", "d", "i", ""⟩] [] 1).1 ∧
      ids_distinct Storyboard.id
        (delete_script [⟨1, "c", "T", "co", "v", false, "u"⟩]
          [⟨1, 1, "s", "d", "i", ""⟩] [] 1).2.1) ∧
    ids_distinct Storyboard.id
      (create_storyboard [⟨1, 1, "s", "d", "i", ""⟩] 1 "s2" "d" "i" "") ∧
    ids_distinct Storyboard.id
      (edit_storyboard [⟨1, 1, "s", "d", "i", ""⟩] 1 "s2" "d" "") ∧
    ids_distinct Storyboard.id
      (delete_storyboard [⟨1, 1, "s", "d", "i", ""⟩] 1) ∧
    ids_distinct Department.id
      (create_department [⟨1, "t", "N", "r", "c", ""⟩] "t" "M" "r" "c" "") ∧
    ids_distinct Department.id
      (edit_department [⟨1, "t", "N", "r", "c", ""⟩] 1 "t" "M" "r" "c"
        "") ∧
    ids_distinct Department.id
      (delete_department [⟨1, "t", "N", "r", "c", ""⟩] 1) ∧
    ids_distinct Schedule.id
      (create_schedule [⟨1, "d", "s", "e", "l", "sc", "r", ""⟩] "d" "s" "e"
        "l" "sc" "r" "") ∧
    ids_distinct Schedule.id
      (edit_schedule [⟨1, "d", "s", "e", "l", "sc", "r", ""⟩] 1 "d" "s" "e"
        "l" "sc" "r" "") ∧
    ids_distinct Schedule.id
      (delete_schedule [⟨1, "d", "s", "e", "l", "sc", "r", ""⟩] 1) ∧
    ids_distinct Meal.id
      (create_meal [⟨1, "d", "m", "t", "p", "v", ""⟩] "d" "m" "t" "p" "v"
        "") ∧
    ids_distinct Meal.id
      (edit_meal [⟨1, "d", "m", "t", "p", "v", ""⟩] 1 "d" "m" "t" "p" "v"
        "") ∧
    ids_distinct Meal.id (delete_meal [⟨1, "d", "m", "t", "p", "v", ""⟩] 1) ∧
    ids_distinct EditingTask.id
      (create_editing_task [⟨1, "c", "t", "e", "s", "v", "l", ""⟩] "c2" "t"
        "e" "s" "v" "l" "") ∧
    ids_distinct EditingTask.id
      (edit_editing_task [⟨1, "c", "t", "e", "s", "v", "l", ""⟩] 1 "c2" "t"
        "e" "s" "v" "" "l") ∧
    ids_distinct EditingTask.id
      (delete_editing_task [⟨1, "c", "t", "e", "s", "v", "l", ""⟩] 1) := by
  obtain ⟨h1, h2, h3, h4, h5, h6, h7, h8, h9, h10, h11, h12, h13, h14, h15,
    h16, h17, h18, h19, h20, h21, h22, h23, h24, h25⟩ :=
    c8_id_uniqueness_invariant
  exact ⟨h1 _ _ _ _ _ _ (by decide), h2 _ _ _ _ _ _ _ (by decide),
    h3 _ _ _ _ (by decide) (by decide), h4 _ _ _ _ _ (by decide),
    h5 _ _ (by decide), h6 _ _ _ _ _ _ _ (by decide), h7 _ _ (by decide),
    h8 _ _ _ _ _ _ _ (by decide), h9 _ _ _ _ _ _ _ _ (by decide),
    h10 _ _ _ _ (by decide) (by decide), h11 _ _ _ _ _ _ (by decide),
    h12 _ _ _ _ _ (by decide), h13 _ _ (by decide),
    h14 _ _ _ _ _ _ (by decide), h15 _ _ _ _ _ _ _ (by decide),
    h16 _ _ (by decide), h17 _ _ _ _ _ _ _ _ (by decide),
    h18 _ _ _ _ _ _ _ _ _ (by decide), h19 _ _ (by decide),
    h20 _ _ _ _ _ _ _ (by decide), h21 _ _ _ _ _ _ _ _ (by decide),
    h22 _ _ (by decide), h23 _ _ _ _ _ _ _ _ (by decide),
    h24 _ _ _ _ _ _ _ _ _ (by decide), h25 _ _ (by decide)⟩

end CAnalysis
